import Mathlib

/-!
Verification development for the AirTrafficMap repository
(single source file src/app/script.js).

The script is embedded shallowly:

* JavaScript field values arriving from the OpenSky feed are modelled by
  the inductive type JSVal (null, undefined, finite numbers as rationals,
  NaN, infinities, strings, booleans).  JavaScript numbers are idealised
  as rationals plus NaN and signed infinity; float rounding is not
  modelled, which is harmless for the offset, truthiness, truncation and
  ordering facts proved here.
* Truthiness (the JavaScript !v test), Number() coercion, Math.abs and
  the signed 32-bit truncation performed by the bitwise  v | 0  operator
  are modelled by truthy, toNumber, absN and toInt32.
* The per-record body of getAirplaneMarkers (script.js lines 201-218) is
  parseState; getAirplaneMarkers itself is the filterMap over the states
  array.  decimalDegreesToRadians in the source returns
  deg * (Math.PI / 180) where deg is the 32-bit truncated absolute
  value; since only the integer deg varies, the embedding keeps deg
  (decimalDegreesToRadiansDeg) and the scaling by pi / 180 is stated in
  the theorems, over the reals.
* The popup, the click handler and the close button are modelled as pure
  state transformers on OverlayState; the map layer swap of
  processAirTrafficData (lines 161-163) is modelled as the list of layer
  operations it issues, and the recursive setTimeout chain (lines
  165-171 and the startup chain 284-292) as a two-state scheduler.
-/

namespace AirTrafficMap

/-- A JavaScript value as it can occur in a raw OpenSky state vector:
null, undefined, a finite number (idealised as a rational), NaN,
an infinity carrying a sign, a string, or a boolean. -/
inductive JSVal : Type
  | vnull : JSVal
  | vundef : JSVal
  | vnum : ℚ → JSVal
  | vnan : JSVal
  | vinf : Bool → JSVal
  | vstr : String → JSVal
  | vbool : Bool → JSVal
deriving DecidableEq, Repr

/-- The result of coercing a JavaScript value to a number:
a finite number, NaN, or a signed infinity. -/
inductive JSNum : Type
  | num : ℚ → JSNum
  | nan : JSNum
  | inf : Bool → JSNum
deriving DecidableEq, Repr

/-- True when the number is finite (neither NaN nor an infinity). -/
def JSNum.isFiniteNum : JSNum → Bool
  | JSNum.num _ => true
  | _ => false

/-- JavaScript truthiness: the value of !!v.  Falsy values are null,
undefined, 0, NaN, the empty string and false. -/
def truthy : JSVal → Bool
  | JSVal.vnull => false
  | JSVal.vundef => false
  | JSVal.vnum q => decide (q ≠ 0)
  | JSVal.vnan => false
  | JSVal.vinf _ => true
  | JSVal.vstr s => decide (s ≠ "")
  | JSVal.vbool b => b

/-- Parses a nonempty run of decimal digits as a natural number;
none when a non-digit occurs.  Helper for the string-to-number
coercion model. -/
def parseNatDigits (cs : List Char) : Option ℕ :=
  cs.foldl
    (fun acc c =>
      match acc with
      | none => none
      | some n => if c.isDigit then some (n * 10 + (c.toNat - 48)) else none)
    (some 0)

/-- Parses an unsigned decimal literal, with an optional single dot,
as a rational.  Model of the StringNumericLiteral grammar restricted to
plain decimal notation (no exponent, no hex, no Infinity literal):
the inputs appearing in this development stay inside this fragment. -/
def parseUnsigned (cs : List Char) : Option ℚ :=
  match cs.span (fun c => c ≠ '.') with
  | (intPart, []) =>
      if intPart = [] then none
      else (parseNatDigits intPart).map (fun n => (n : ℚ))
  | (intPart, _dot :: fracPart) =>
      if fracPart.contains '.' then none
      else if intPart = [] ∧ fracPart = [] then none
      else
        match (if intPart = [] then some 0 else parseNatDigits intPart),
              (if fracPart = [] then some 0 else parseNatDigits fracPart) with
        | some i, some f =>
            some (mkRat (i * 10 ^ fracPart.length + f) (10 ^ fracPart.length))
        | _, _ => none

/-- Parses an optionally signed decimal literal as a rational. -/
def parseSigned (cs : List Char) : Option ℚ :=
  match cs with
  | '-' :: rest => (parseUnsigned rest).map (fun q => -q)
  | '+' :: rest => parseUnsigned rest
  | _ => parseUnsigned cs

/-- JavaScript string-to-number coercion: surrounding whitespace is
trimmed, the empty string becomes 0, a decimal literal becomes its
value, anything else becomes NaN. -/
def strToNumber (s : String) : JSNum :=
  let cs :=
    ((s.toList.dropWhile Char.isWhitespace).reverse.dropWhile
        Char.isWhitespace).reverse
  if cs = [] then JSNum.num 0
  else
    match parseSigned cs with
    | some q => JSNum.num q
    | none => JSNum.nan

/-- JavaScript Number() coercion, as applied by the source at
script.js lines 210-211 (lon and lat) and inside Math.abs. -/
def toNumber : JSVal → JSNum
  | JSVal.vnull => JSNum.num 0
  | JSVal.vundef => JSNum.nan
  | JSVal.vnum q => JSNum.num q
  | JSVal.vnan => JSNum.nan
  | JSVal.vinf b => JSNum.inf b
  | JSVal.vstr s => strToNumber s
  | JSVal.vbool b => JSNum.num (if b then 1 else 0)

/-- Math.abs on a coerced number. -/
def absN : JSNum → JSNum
  | JSNum.num q => JSNum.num |q|
  | JSNum.nan => JSNum.nan
  | JSNum.inf _ => JSNum.inf false

/-- Truncation toward zero of a rational to an integer. -/
def jsTrunc (q : ℚ) : ℤ :=
  if 0 ≤ q then ⌊q⌋ else ⌈q⌉

/-- The ECMAScript ToInt32 conversion performed by the bitwise
operator  v | 0 : NaN and infinities become 0; a finite number is
truncated toward zero and reduced modulo 2 ^ 32 into the signed 32-bit
range. -/
def toInt32 : JSNum → ℤ
  | JSNum.nan => 0
  | JSNum.inf _ => 0
  | JSNum.num q =>
      let t := jsTrunc q
      let m := t % (2 ^ 32 : ℤ)
      if 2 ^ 31 ≤ m then m - 2 ^ 32 else m

/-- The integer degree count computed by decimalDegreesToRadians
(script.js lines 259-263): deg = Math.abs(dd) | 0.  The source then
returns deg * (Math.PI / 180); that scaling by pi / 180 is stated in
the theorems over the reals, since only deg varies. -/
def decimalDegreesToRadiansDeg (dd : JSVal) : ℤ :=
  toInt32 (absN (toNumber dd))

/-- An OpenLayers plane icon as built by createPlaneIcon plus the
airplaneData field attached at script.js line 216.  lon and lat are the
coerced coordinates handed to createPlaneIcon; rotation is the integer
degree count deg of decimalDegreesToRadians (the icon stores
deg * (Math.PI / 180) radians); airplaneData is the raw state vector,
retained verbatim. -/
structure PlaneIcon : Type where
  lon : JSNum
  lat : JSNum
  rotation : ℤ
  airplaneData : List JSVal
deriving DecidableEq, Repr

/-- The JSON payload of the telemetry endpoint: an object exposing a
states array of raw state vectors. -/
structure FlightData : Type where
  states : List (List JSVal)
deriving DecidableEq, Repr

/-- Indexing into a raw state vector; a position past the end reads as
undefined, as in JavaScript. -/
def getIndex (s : List JSVal) (i : ℕ) : JSVal :=
  s.getD i JSVal.vundef

/-- The body of the forEach loop of getAirplaneMarkers (script.js
lines 201-218), one raw state vector at a time: read lon at position 5,
lat at position 6, rotation at position 10; skip the record when any of
the three is falsy; otherwise coerce lon and lat with Number(), convert
the rotation, and build the icon carrying the raw vector. -/
def parseState (state : List JSVal) : Option PlaneIcon :=
  let lon := getIndex state 5
  let lat := getIndex state 6
  let rotation := getIndex state 10
  if !(truthy lat) || !(truthy lon) || !(truthy rotation) then none
  else
    some { lon := toNumber lon
           lat := toNumber lat
           rotation := decimalDegreesToRadiansDeg rotation
           airplaneData := state }

/-- getAirplaneMarkers (script.js lines 198-221): the records of the
states array that survive the validity gate, in source order. -/
def getAirplaneMarkers (flightData : FlightData) : List PlaneIcon :=
  flightData.states.filterMap parseState

/-- The validity gate of getAirplaneMarkers as a Boolean predicate on a
raw state vector: lat (position 6), lon (position 5) and rotation
(position 10) are all truthy. -/
def validState (state : List JSVal) : Bool :=
  truthy (getIndex state 6) && truthy (getIndex state 5) &&
    truthy (getIndex state 10)

/-- The OpenLayers vector layer built by getFlightDataOverlay
(script.js lines 179-189): a layer whose source holds exactly the given
marker icons. -/
structure VectorLayer : Type where
  features : List PlaneIcon
deriving DecidableEq, Repr

/-- getFlightDataOverlay: wraps the marker array in a vector source and
that source in a vector layer. -/
def getFlightDataOverlay (airplaneMarkers : List PlaneIcon) : VectorLayer :=
  { features := airplaneMarkers }

/-- A layer operation issued against the map: map.removeLayer or
map.addLayer. -/
inductive MapOp : Type
  | removeLayer : VectorLayer → MapOp
  | addLayer : VectorLayer → MapOp
deriving DecidableEq, Repr

/-- Effect of one layer operation on the list of layers attached to the
map: removeLayer detaches the given layer (its first occurrence) if
present, addLayer appends the given layer. -/
def applyOp (layers : List VectorLayer) : MapOp → List VectorLayer
  | MapOp.removeLayer l => layers.erase l
  | MapOp.addLayer l => layers ++ [l]

/-- Effect of a sequence of layer operations, applied left to right. -/
def applyOps (layers : List VectorLayer) (ops : List MapOp) :
    List VectorLayer :=
  ops.foldl applyOp layers

/-- The render-swap of processAirTrafficData (script.js lines 155-163),
as the sequence of layer operations the function issues: it first calls
map.removeLayer on the previous data layer, then map.addLayer on the
overlay freshly built from the new flight data. -/
def processAirTrafficDataOps (flightData : FlightData)
    (oldDataLayer : VectorLayer) : List MapOp :=
  let airplaneMarkers := getAirplaneMarkers flightData
  let flightDataOverlay := getFlightDataOverlay airplaneMarkers
  [MapOp.removeLayer oldDataLayer, MapOp.addLayer flightDataOverlay]

/-- A map coordinate, as handed to popupOverlay.setPosition by the
click handler. -/
abbrev Coordinate : Type := ℚ × ℚ

/-- The four labelled cells written into the popup body by
setPopupContent (script.js lines 131-146): the Callsign cell shows
airplaneData[1], the From cell airplaneData[2], the cell labelled
Latitude shows airplaneData[5], and the cell labelled Longitude shows
airplaneData[6].  The HTML wrapper around the four values is elided. -/
structure PopupContent : Type where
  callsign : JSVal
  origin : JSVal
  latitudeDisplay : JSVal
  longitudeDisplay : JSVal
deriving DecidableEq, Repr

/-- setPopupContent: populates the popup body from fixed raw-vector
positions 1, 2, 5 and 6. -/
def setPopupContent (airplaneData : List JSVal) : PopupContent :=
  { callsign := getIndex airplaneData 1
    origin := getIndex airplaneData 2
    latitudeDisplay := getIndex airplaneData 5
    longitudeDisplay := getIndex airplaneData 6 }

/-- The state of the popup overlay: its position (none when the overlay
is hidden, i.e. setPosition(undefined) was called) and the popup body
content last written by setPopupContent.  The InspectionState of the
specification is the selected content while the overlay is visible. -/
structure OverlayState : Type where
  position : Option Coordinate
  content : Option PopupContent
deriving DecidableEq, Repr

/-- Whether the popup overlay is visible: it has a position. -/
def overlayVisible (st : OverlayState) : Bool :=
  st.position.isSome

/-- The InspectionState: the content shown for the selected entity, or
none when the overlay is hidden (no entity is selected). -/
def inspectionState (st : OverlayState) : Option PopupContent :=
  if st.position.isSome then st.content else none

/-- The map click handler (script.js lines 93-101).  Its input is the
result of map.getFeaturesAtPixel at the click pixel: none models the
null result when the hit-test strikes no rendered entity, some plane
models a hit whose first struck feature (icon[0]) is plane.  On a miss
the handler calls popupOverlay.setPosition(undefined); on a hit it
positions the overlay at the click coordinate and rewrites the popup
body from the airplaneData attached to the struck icon. -/
def mapClickHandler (st : OverlayState) (hit : Option PlaneIcon)
    (coordinate : Coordinate) : OverlayState :=
  match hit with
  | none => { st with position := none }
  | some plane =>
      { position := some coordinate
        content := some (setPopupContent plane.airplaneData) }

/-- The closePopupButton.onclick handler (script.js lines 115-119):
unconditionally calls popupOverlay.setPosition(undefined).  The blur of
the button and the returned false are DOM cosmetics with no effect on
the modelled state. -/
def closePopupOnClick (st : OverlayState) : OverlayState :=
  { st with position := none }

/-- Outcome of one fetch-plus-process attempt of the refresh cycle:
either the fetch resolved with a payload carrying a states array and
processing ran to completion, or the fetch rejected or processing threw
(for instance on a payload without a states array), which the promise
chain inside the setTimeout callback (script.js lines 166-170) leaves
as an unhandled rejection. -/
inductive FetchResult : Type
  | success : FlightData → FetchResult
  | failure : FetchResult
deriving DecidableEq, Repr

/-- The refresh scheduler state distilled from the recursive setTimeout
chain of processAirTrafficData (script.js lines 165-171): running l
means a timer is armed and l is the currently attached data layer (the
oldDataLayer of the next cycle); stopped means no timer is armed, so no
further fetch will ever be issued. -/
inductive SchedState : Type
  | running : VectorLayer → SchedState
  | stopped : SchedState
deriving DecidableEq, Repr

/-- One refresh cycle.  From running, a successful fetch runs
processAirTrafficData: the layer is swapped for the overlay built from
the new data and setTimeout re-arms the timer (running again).  A fetch
or processing failure leaves the rejection unhandled: no setTimeout
call is reached, so no timer is re-armed (stopped).  From stopped
nothing ever runs again. -/
def refreshStep (s : SchedState) (r : FetchResult) : SchedState :=
  match s, r with
  | SchedState.stopped, _ => SchedState.stopped
  | SchedState.running _, FetchResult.failure => SchedState.stopped
  | SchedState.running _, FetchResult.success flightData =>
      SchedState.running (getFlightDataOverlay (getAirplaneMarkers flightData))

/-- Number of fetches the scheduler performs along a trace of would-be
fetch outcomes: a fetch happens only while a timer is armed (running);
once stopped, the remaining outcomes are never consumed. -/
def fetchesPerformed : SchedState → List FetchResult → ℕ
  | _, [] => 0
  | SchedState.stopped, _ :: _ => 0
  | SchedState.running l, r :: rs =>
      1 + fetchesPerformed (refreshStep (SchedState.running l) r) rs

/-- The raw state vector of the specification scenario: identity at
position 1, origin at position 2, lon 10.5 at position 5, lat 20.3 at
position 6, heading 45.7 at position 10 (rationals written with mkRat). -/
def exampleRecord : List JSVal :=
  [JSVal.vnull, JSVal.vstr "ABC123", JSVal.vstr "USA", JSVal.vnull,
   JSVal.vnull, JSVal.vnum (mkRat 21 2), JSVal.vnum (mkRat 203 10),
   JSVal.vnull, JSVal.vnull, JSVal.vnull, JSVal.vnum (mkRat 457 10)]

/-- The icon getAirplaneMarkers builds from exampleRecord. -/
def exampleIcon : PlaneIcon :=
  { lon := JSNum.num (mkRat 21 2)
    lat := JSNum.num (mkRat 203 10)
    rotation := 45
    airplaneData := exampleRecord }

/-- A raw state vector whose lon field (position 5) is the string abc:
truthy, but NaN after Number() coercion. -/
def nonNumericRecord : List JSVal :=
  [JSVal.vnull, JSVal.vnull, JSVal.vnull, JSVal.vnull, JSVal.vnull,
   JSVal.vstr "abc", JSVal.vnum 20, JSVal.vnull, JSVal.vnull, JSVal.vnull,
   JSVal.vnum 45]

/-- A raw state vector with valid lat and lon whose heading field is
2 ^ 31, large enough to wrap under the 32-bit truncation. -/
def bigHeadingRecord : List JSVal :=
  [JSVal.vnull, JSVal.vnull, JSVal.vnull, JSVal.vnull, JSVal.vnull,
   JSVal.vnum 10, JSVal.vnum 20, JSVal.vnull, JSVal.vnull, JSVal.vnull,
   JSVal.vnum (2 ^ 31)]

/-- A vector layer with no features, used as a previous-cycle layer in
concrete render-swap statements. -/
def emptyLayer : VectorLayer :=
  { features := [] }

/-! Helper lemmas about the parser and the 32-bit truncation. -/

/-- The record is skipped exactly when the validity gate fails. -/
lemma parseState_none_iff (s : List JSVal) :
    parseState s = none ↔ validState s = false := by
  unfold parseState validState
  cases h6 : truthy (getIndex s 6) <;> cases h5 : truthy (getIndex s 5) <;>
    cases h10 : truthy (getIndex s 10) <;> simp [h6, h5, h10]

/-- On a record that passes the validity gate, parseState builds the
icon from positions 5, 6 and 10 and retains the raw vector. -/
lemma parseState_some_of_valid (s : List JSVal) (h : validState s = true) :
    parseState s =
      some { lon := toNumber (getIndex s 5)
             lat := toNumber (getIndex s 6)
             rotation := decimalDegreesToRadiansDeg (getIndex s 10)
             airplaneData := s } := by
  unfold parseState
  unfold validState at h
  cases h6 : truthy (getIndex s 6) <;> cases h5 : truthy (getIndex s 5) <;>
    cases h10 : truthy (getIndex s 10) <;> simp_all

/-- Inversion: a produced icon comes from a record that passed the gate
and has exactly the shape built by the loop body. -/
lemma parseState_some_elim (s : List JSVal) (p : PlaneIcon)
    (h : parseState s = some p) :
    validState s = true ∧
      p = { lon := toNumber (getIndex s 5)
            lat := toNumber (getIndex s 6)
            rotation := decimalDegreesToRadiansDeg (getIndex s 10)
            airplaneData := s } := by
  cases hv : validState s with
  | false =>
      rw [(parseState_none_iff s).mpr hv] at h
      exact Option.noConfusion h
  | true =>
      refine ⟨rfl, ?_⟩
      rw [parseState_some_of_valid s hv] at h
      exact (Option.some.inj h).symm

/-- ToInt32 is the identity composed with the floor on finite
nonnegative inputs below 2 ^ 31. -/
lemma toInt32_small (q : ℚ) (h0 : 0 ≤ q) (h : q < 2 ^ 31) :
    toInt32 (JSNum.num q) = ⌊q⌋ := by
  have h1 : (0 : ℤ) ≤ ⌊q⌋ := Int.floor_nonneg.mpr h0
  have h2 : ⌊q⌋ < 2 ^ 31 := Int.floor_lt.mpr (by exact_mod_cast h)
  have h3 : ⌊q⌋ % (2 ^ 32 : ℤ) = ⌊q⌋ :=
    Int.emod_eq_of_lt h1 (lt_trans h2 (by norm_num))
  have ht : jsTrunc q = ⌊q⌋ := by unfold jsTrunc; rw [if_pos h0]
  simp only [toInt32, ht, h3]
  rw [if_neg (not_le.mpr h2)]

/-- The degree count of the heading conversion is the floor of the
absolute value whenever that absolute value stays below 2 ^ 31. -/
lemma ddtrDeg_small (q : ℚ) (h : |q| < 2 ^ 31) :
    decimalDegreesToRadiansDeg (JSVal.vnum q) = ⌊|q|⌋ := by
  unfold decimalDegreesToRadiansDeg
  simp only [toNumber, absN]
  exact toInt32_small |q| (abs_nonneg q) h

/-- The radian scale factor is nonzero. -/
lemma pi180_ne_zero : (Real.pi / 180 : ℝ) ≠ 0 :=
  div_ne_zero Real.pi_ne_zero (by norm_num)

/-- A fully stopped scheduler never performs a fetch. -/
lemma fetchesPerformed_stopped (rs : List FetchResult) :
    fetchesPerformed SchedState.stopped rs = 0 := by
  cases rs <;> rfl

/-- Filtering a list splits its length between the records kept and the
records dropped. -/
lemma filter_length_split (l : List (List JSVal)) :
    (l.filter (fun s => validState s)).length +
      (l.filter (fun s => !(validState s))).length = l.length := by
  induction l with
  | nil => rfl
  | cons s t ih =>
      cases hv : validState s <;> simp [List.filter_cons, hv] <;> omega

/-- The raw vectors of the icons the transformer produces are exactly
the records that pass the gate, in source order. -/
lemma markers_map_eq (l : List (List JSVal)) :
    (l.filterMap parseState).map (fun p => p.airplaneData) =
      l.filter (fun s => validState s) := by
  induction l with
  | nil => rfl
  | cons s t ih =>
      cases hv : validState s with
      | false =>
          have hn : parseState s = none := (parseState_none_iff s).mpr hv
          simp [List.filterMap_cons, hn, List.filter_cons, hv, ih]
      | true =>
          have hs := parseState_some_of_valid s hv
          simp [List.filterMap_cons, hs, List.filter_cons, hv, ih]

/-! Claim theorems. -/

/-- Claim C1: the parser and the inspection overlay use deliberately
different raw-vector offsets, simultaneously.  For every raw state
vector that yields an icon, the parser read longitude from position 5,
latitude from position 6 and heading from position 10, retaining the
raw vector on the icon; setPopupContent on the same raw vector shows
position 1 as the identity (Callsign), position 2 as the origin (From),
the value at raw position 5 under the Latitude label and the value at
raw position 6 under the Longitude label. -/
theorem offsets_parser_vs_overlay (s : List JSVal) (p : PlaneIcon)
    (h : parseState s = some p) :
    (p.lon = toNumber (getIndex s 5) ∧ p.lat = toNumber (getIndex s 6) ∧
      p.rotation = decimalDegreesToRadiansDeg (getIndex s 10) ∧
      p.airplaneData = s) ∧
    ((setPopupContent s).callsign = getIndex s 1 ∧
      (setPopupContent s).origin = getIndex s 2 ∧
      (setPopupContent s).latitudeDisplay = getIndex s 5 ∧
      (setPopupContent s).longitudeDisplay = getIndex s 6) := by
  obtain ⟨-, hp⟩ := parseState_some_elim s p h
  subst hp
  exact ⟨⟨rfl, rfl, rfl, rfl⟩, rfl, rfl, rfl, rfl⟩

/-- Witness for C1 at the specification scenario record. -/
theorem offsets_parser_vs_overlay_witness :
    parseState exampleRecord = some exampleIcon ∧
    exampleIcon.lon = toNumber (getIndex exampleRecord 5) ∧
    exampleIcon.lat = toNumber (getIndex exampleRecord 6) ∧
    (setPopupContent exampleRecord).latitudeDisplay =
      getIndex exampleRecord 5 ∧
    (setPopupContent exampleRecord).longitudeDisplay =
      getIndex exampleRecord 6 :=
  ⟨by decide,
   (offsets_parser_vs_overlay exampleRecord exampleIcon (by decide)).1.1,
   (offsets_parser_vs_overlay exampleRecord exampleIcon (by decide)).1.2.1,
   (offsets_parser_vs_overlay exampleRecord exampleIcon (by decide)).2.2.2.1,
   (offsets_parser_vs_overlay exampleRecord exampleIcon (by decide)).2.2.2.2⟩

/-- Counterexample to claim C2 as stated: the record bigHeadingRecord
has valid (present, truthy, numeric) lat, lon and heading, its heading
being 2 ^ 31 degrees, yet the produced entity carries the wrapped
degree count -(2 ^ 31), whose radian value differs from
floor(2 ^ 31) * pi / 180. -/
theorem heading_conversion_counterexample :
    truthy (getIndex bigHeadingRecord 5) = true ∧
    truthy (getIndex bigHeadingRecord 6) = true ∧
    getIndex bigHeadingRecord 10 = JSVal.vnum (2 ^ 31) ∧
    (parseState bigHeadingRecord).map (fun p => p.rotation) =
      some (-(2 ^ 31)) ∧
    ⌊|(2 ^ 31 : ℚ)|⌋ = (2 ^ 31 : ℤ) ∧
    ¬ (((-(2 ^ 31) : ℤ) : ℝ) * (Real.pi / 180) =
        ((⌊|(2 ^ 31 : ℚ)|⌋ : ℤ) : ℝ) * (Real.pi / 180)) := by
  refine ⟨by decide, by decide, by decide, by decide, by decide, ?_⟩
  have hfl : ⌊|(2 ^ 31 : ℚ)|⌋ = (2 ^ 31 : ℤ) := by decide
  rw [hfl]
  intro hcontra
  have h2 : ((-(2 ^ 31) : ℤ) : ℝ) = (((2 ^ 31 : ℤ) : ℤ) : ℝ) :=
    mul_right_cancel₀ pi180_ne_zero hcontra
  norm_num at h2

/-- Claim C2, amended: for a raw record whose lat and lon fields are
truthy and whose heading field is a truthy (nonzero) number q with
|q| below 2 ^ 31, parse produces the entity whose degree count is
floor(|q|), so its heading in radians is floor(|q|) * pi / 180.  (For
|q| at or above 2 ^ 31 the 32-bit truncation wraps; see the
counterexample and claim C10.) -/
theorem heading_conversion_bounded (s : List JSVal) (q : ℚ)
    (hlat : truthy (getIndex s 6) = true)
    (hlon : truthy (getIndex s 5) = true)
    (hhead : getIndex s 10 = JSVal.vnum q) (hq : q ≠ 0)
    (hlt : |q| < 2 ^ 31) :
    parseState s =
      some { lon := toNumber (getIndex s 5)
             lat := toNumber (getIndex s 6)
             rotation := ⌊|q|⌋
             airplaneData := s } ∧
    ((decimalDegreesToRadiansDeg (getIndex s 10) : ℤ) : ℝ) *
        (Real.pi / 180) =
      ((⌊|q|⌋ : ℤ) : ℝ) * (Real.pi / 180) := by
  have hdeg : decimalDegreesToRadiansDeg (getIndex s 10) = ⌊|q|⌋ := by
    rw [hhead]
    exact ddtrDeg_small q hlt
  have hv : validState s = true := by
    unfold validState
    rw [hlat, hlon, hhead]
    simp [truthy, hq]
  refine ⟨?_, by rw [hdeg]⟩
  rw [parseState_some_of_valid s hv, hdeg]

/-- Witness for the amended C2 at the specification scenario record
(heading 45.7, degree count 45). -/
theorem heading_conversion_bounded_witness :
    parseState exampleRecord =
      some { lon := toNumber (getIndex exampleRecord 5)
             lat := toNumber (getIndex exampleRecord 6)
             rotation := ⌊|(mkRat 457 10 : ℚ)|⌋
             airplaneData := exampleRecord } ∧
    ((decimalDegreesToRadiansDeg (getIndex exampleRecord 10) : ℤ) : ℝ) *
        (Real.pi / 180) =
      ((⌊|(mkRat 457 10 : ℚ)|⌋ : ℤ) : ℝ) * (Real.pi / 180) :=
  heading_conversion_bounded exampleRecord (mkRat 457 10) (by decide)
    (by decide) (by decide) (by decide) (by decide)

/-- Counterexample to claim C3 as stated: the lon field of
nonNumericRecord is the string abc, which is non-numeric after
coercion to a number (it coerces to NaN), yet parse does not yield
absent: the truthiness gate only rejects falsy raw values, and a
nonempty string is truthy. -/
theorem parse_absent_counterexample :
    getIndex nonNumericRecord 5 = JSVal.vstr "abc" ∧
    toNumber (JSVal.vstr "abc") = JSNum.nan ∧
    (parseState nonNumericRecord).isSome = true := by decide

/-- Claim C3, amended: parse yields absent exactly when the raw
latitude, longitude or heading field is falsy, and the falsy values are
undefined (missing), null, the number zero, NaN, the empty string and
false.  A present, truthy field that is non-numeric after coercion
(such as a nonempty non-numeric string) is not skipped.  Skipping is
silent: parse is total and never raises. -/
theorem parse_absent_iff_falsy (s : List JSVal) :
    (parseState s = none ↔
      (truthy (getIndex s 6) = false ∨ truthy (getIndex s 5) = false ∨
        truthy (getIndex s 10) = false)) ∧
    (∀ v : JSVal, truthy v = false ↔
      (v = JSVal.vundef ∨ v = JSVal.vnull ∨ v = JSVal.vnum 0 ∨
        v = JSVal.vnan ∨ v = JSVal.vstr "" ∨ v = JSVal.vbool false)) := by
  constructor
  · rw [parseState_none_iff]
    unfold validState
    cases h6 : truthy (getIndex s 6) <;> cases h5 : truthy (getIndex s 5) <;>
      cases h10 : truthy (getIndex s 10) <;> simp [h6, h5, h10]
  · intro v
    cases v <;> simp [truthy]

/-- Claim C4: on N raw records of which K fail the gate, the
transformer yields exactly N - K icons, in the relative order of the
valid records (their raw vectors are the valid records in source
order); the empty input yields the empty marker list and never fails
(the transformer is a total function). -/
theorem transform_filters_and_preserves_order (fd : FlightData) :
    ((getAirplaneMarkers fd).map (fun p => p.airplaneData) =
      fd.states.filter (fun s => validState s)) ∧
    (getAirplaneMarkers fd).length =
      fd.states.length -
        (fd.states.filter (fun s => !(validState s))).length ∧
    getAirplaneMarkers { states := [] } = [] := by
  have hmap := markers_map_eq fd.states
  have hsplit := filter_length_split fd.states
  refine ⟨hmap, ?_, rfl⟩
  have hlen : (getAirplaneMarkers fd).length =
      (fd.states.filter (fun s => validState s)).length := by
    rw [← hmap]
    exact (List.length_map _ _).symm
  omega

/-- Counterexample to claim C5 as stated: the renderer layer built from
a snapshot containing nonNumericRecord carries an entity whose
longitude is NaN, not a finite valid number, because the truthy string
abc passed the gate and then coerced to NaN. -/
theorem rendered_position_counterexample :
    getIndex nonNumericRecord 5 = JSVal.vstr "abc" ∧
    truthy (JSVal.vstr "abc") = true ∧
    ((getFlightDataOverlay
        (getAirplaneMarkers { states := [nonNumericRecord] })).features.map
      (fun p => p.lon)) = [JSNum.nan] ∧
    JSNum.nan.isFiniteNum = false := by decide

/-- Claim C5, amended: every entity on a rendered layer comes from a
raw record all three gated fields of which (lon at 5, lat at 6, heading
at 10) are truthy, so records with missing or falsy fields never reach
the renderer; and whenever the raw lon and lat fields are moreover
numeric, the entity position is a finite valid number.  (A truthy
non-numeric field still passes the gate and yields a NaN coordinate;
see the counterexample.) -/
theorem rendered_entities_gated (fd : FlightData) (p : PlaneIcon)
    (hmem : p ∈ (getFlightDataOverlay (getAirplaneMarkers fd)).features) :
    truthy (getIndex p.airplaneData 5) = true ∧
    truthy (getIndex p.airplaneData 6) = true ∧
    truthy (getIndex p.airplaneData 10) = true ∧
    p.lon = toNumber (getIndex p.airplaneData 5) ∧
    p.lat = toNumber (getIndex p.airplaneData 6) ∧
    (∀ q : ℚ, getIndex p.airplaneData 5 = JSVal.vnum q →
      p.lon = JSNum.num q ∧ p.lon.isFiniteNum = true) ∧
    (∀ q : ℚ, getIndex p.airplaneData 6 = JSVal.vnum q →
      p.lat = JSNum.num q ∧ p.lat.isFiniteNum = true) := by
  obtain ⟨s, hs, hps⟩ := List.mem_filterMap.mp hmem
  obtain ⟨hv, hp⟩ := parseState_some_elim s p hps
  have hdata : p.airplaneData = s := by rw [hp]
  unfold validState at hv
  rw [← hdata] at hv
  simp only [Bool.and_eq_true] at hv
  obtain ⟨⟨hv6, hv5⟩, hv10⟩ := hv
  have hlon : p.lon = toNumber (getIndex p.airplaneData 5) := by rw [hp]
  have hlat : p.lat = toNumber (getIndex p.airplaneData 6) := by rw [hp]
  refine ⟨hv5, hv6, hv10, hlon, hlat, ?_, ?_⟩
  · intro q hq
    rw [hq] at hlon
    exact ⟨hlon, by rw [hlon]; rfl⟩
  · intro q hq
    rw [hq] at hlat
    exact ⟨hlat, by rw [hlat]; rfl⟩

/-- Witness for the amended C5 at the specification scenario record. -/
theorem rendered_entities_gated_witness :
    exampleIcon ∈
      (getFlightDataOverlay
        (getAirplaneMarkers { states := [exampleRecord] })).features ∧
    truthy (getIndex exampleIcon.airplaneData 5) = true ∧
    truthy (getIndex exampleIcon.airplaneData 6) = true ∧
    truthy (getIndex exampleIcon.airplaneData 10) = true ∧
    exampleIcon.lon = JSNum.num (mkRat 21 2) ∧
    exampleIcon.lon.isFiniteNum = true ∧
    exampleIcon.lat = JSNum.num (mkRat 203 10) ∧
    exampleIcon.lat.isFiniteNum = true :=
  ⟨by decide,
   (rendered_entities_gated { states := [exampleRecord] } exampleIcon
      (by decide)).1,
   (rendered_entities_gated { states := [exampleRecord] } exampleIcon
      (by decide)).2.1,
   (rendered_entities_gated { states := [exampleRecord] } exampleIcon
      (by decide)).2.2.1,
   ((rendered_entities_gated { states := [exampleRecord] } exampleIcon
      (by decide)).2.2.2.2.2.1 (mkRat 21 2) (by decide)).1,
   ((rendered_entities_gated { states := [exampleRecord] } exampleIcon
      (by decide)).2.2.2.2.2.1 (mkRat 21 2) (by decide)).2,
   ((rendered_entities_gated { states := [exampleRecord] } exampleIcon
      (by decide)).2.2.2.2.2.2 (mkRat 203 10) (by decide)).1,
   ((rendered_entities_gated { states := [exampleRecord] } exampleIcon
      (by decide)).2.2.2.2.2.2 (mkRat 203 10) (by decide)).2⟩

/-- Claim C6: after a fetch or processing failure during a refresh
cycle the timer is never re-armed.  The failure transition lands in the
stopped state, a stopped scheduler performs no fetches whatever the
remaining trace, and along any execution the fetch count is unaffected
by everything scheduled after the first failure. -/
theorem fail_stop_no_rearm (s : SchedState)
    (pre post : List FetchResult) :
    refreshStep s FetchResult.failure = SchedState.stopped ∧
    fetchesPerformed (refreshStep s FetchResult.failure) post = 0 ∧
    fetchesPerformed s (pre ++ FetchResult.failure :: post) =
      fetchesPerformed s (pre ++ [FetchResult.failure]) := by
  have h3 : ∀ t : SchedState,
      fetchesPerformed t (pre ++ FetchResult.failure :: post) =
        fetchesPerformed t (pre ++ [FetchResult.failure]) := by
    induction pre with
    | nil =>
        intro t
        cases t with
        | stopped => rw [fetchesPerformed_stopped, fetchesPerformed_stopped]
        | running l =>
            simp [fetchesPerformed, refreshStep, fetchesPerformed_stopped]
    | cons r pre ih =>
        intro t
        cases t with
        | stopped => rw [fetchesPerformed_stopped, fetchesPerformed_stopped]
        | running l =>
            simp only [List.cons_append, fetchesPerformed]
            exact congrArg (fun n => 1 + n)
              (ih (refreshStep (SchedState.running l) r))
  have hstop : refreshStep s FetchResult.failure = SchedState.stopped := by
    cases s <;> rfl
  exact ⟨hstop, by rw [hstop]; exact fetchesPerformed_stopped post, h3 s⟩

/-- Counterexample to claim C7 as stated: the render-swap of
processAirTrafficData does not attach the new layer before detaching
the old one; it issues removeLayer first and addLayer second. -/
theorem swap_order_counterexample :
    processAirTrafficDataOps { states := [] } emptyLayer =
      [MapOp.removeLayer emptyLayer, MapOp.addLayer emptyLayer] ∧
    processAirTrafficDataOps { states := [] } emptyLayer ≠
      [MapOp.addLayer
          (getFlightDataOverlay (getAirplaneMarkers { states := [] })),
        MapOp.removeLayer emptyLayer] := by decide

/-- Claim C7, amended: in every refresh cycle the render-swap detaches
the previous layer first and attaches the new layer second
(detach-then-attach, the reverse of the claimed order); consequently,
when the map held the previous layer at most once and the new layer is
a different object, at the end of the swap the old layer is fully
removed from the map and the new layer is attached. -/
theorem swap_detach_then_attach (fd : FlightData)
    (oldDataLayer : VectorLayer) (layers : List VectorLayer)
    (hcount : layers.count oldDataLayer ≤ 1)
    (hne : oldDataLayer ≠ getFlightDataOverlay (getAirplaneMarkers fd)) :
    processAirTrafficDataOps fd oldDataLayer =
      [MapOp.removeLayer oldDataLayer,
        MapOp.addLayer (getFlightDataOverlay (getAirplaneMarkers fd))] ∧
    applyOps layers (processAirTrafficDataOps fd oldDataLayer) =
      (layers.erase oldDataLayer) ++
        [getFlightDataOverlay (getAirplaneMarkers fd)] ∧
    oldDataLayer ∉ applyOps layers (processAirTrafficDataOps fd oldDataLayer) ∧
    getFlightDataOverlay (getAirplaneMarkers fd) ∈
      applyOps layers (processAirTrafficDataOps fd oldDataLayer) := by
  refine ⟨rfl, rfl, ?_, ?_⟩
  · intro hmem
    rcases List.mem_append.mp hmem with hold | hnew
    · have hz : (layers.erase oldDataLayer).count oldDataLayer = 0 := by
        rw [List.count_erase_self]
        omega
      exact (List.count_eq_zero.mp hz) hold
    · exact hne (List.mem_singleton.mp hnew)
  · exact List.mem_append.mpr (Or.inr (List.mem_singleton.mpr rfl))

/-- Witness for the amended C7: a map holding exactly the previous
layer, whose single feature distinguishes it from the fresh empty
layer. -/
theorem swap_detach_then_attach_witness :
    processAirTrafficDataOps { states := [] }
        { features := [exampleIcon] } =
      [MapOp.removeLayer { features := [exampleIcon] },
        MapOp.addLayer
          (getFlightDataOverlay (getAirplaneMarkers { states := [] }))] ∧
    ({ features := [exampleIcon] } : VectorLayer) ∉
      applyOps [{ features := [exampleIcon] }]
        (processAirTrafficDataOps { states := [] }
          { features := [exampleIcon] }) :=
  ⟨(swap_detach_then_attach { states := [] } { features := [exampleIcon] }
      [{ features := [exampleIcon] }] (by decide) (by decide)).1,
   (swap_detach_then_attach { states := [] } { features := [exampleIcon] }
      [{ features := [exampleIcon] }] (by decide) (by decide)).2.2.1⟩

/-- Claim C8: a click whose hit-test strikes no rendered entity always
hides the overlay and clears the InspectionState, from every prior
overlay state, including states in which an entity was previously
selected. -/
theorem click_miss_clears_inspection (st : OverlayState) (c : Coordinate) :
    (mapClickHandler st none c).position = none ∧
    overlayVisible (mapClickHandler st none c) = false ∧
    inspectionState (mapClickHandler st none c) = none :=
  ⟨rfl, rfl, rfl⟩

/-- Claim C9: the explicit close action hides the overlay and clears
the InspectionState unconditionally, from every prior state, and is
idempotent. -/
theorem close_unconditional_idempotent (st : OverlayState) :
    (closePopupOnClick st).position = none ∧
    overlayVisible (closePopupOnClick st) = false ∧
    inspectionState (closePopupOnClick st) = none ∧
    closePopupOnClick (closePopupOnClick st) = closePopupOnClick st :=
  ⟨rfl, rfl, rfl, rfl⟩

/-- Claim C10: the degree truncation of the heading conversion is a
signed 32-bit bitwise truncation.  Below 2 ^ 31 in absolute value the
degree count is exactly floor(|dd|); at 2 ^ 31 it wraps into the signed
32-bit range, becoming the negative value -(2 ^ 31), which differs from
floor(2 ^ 31), so the stored heading in radians deviates from
floor(|heading|) * pi / 180 there. -/
theorem toInt32_truncation_wrap :
    (∀ q : ℚ, |q| < 2 ^ 31 →
      decimalDegreesToRadiansDeg (JSVal.vnum q) = ⌊|q|⌋) ∧
    decimalDegreesToRadiansDeg (JSVal.vnum (2 ^ 31)) = -(2 ^ 31) ∧
    decimalDegreesToRadiansDeg (JSVal.vnum (2 ^ 31)) ≠ ⌊|(2 ^ 31 : ℚ)|⌋ ∧
    decimalDegreesToRadiansDeg (JSVal.vnum (2 ^ 31)) < 0 ∧
    ((decimalDegreesToRadiansDeg (JSVal.vnum (2 ^ 31)) : ℤ) : ℝ) *
        (Real.pi / 180) ≠
      ((⌊|(2 ^ 31 : ℚ)|⌋ : ℤ) : ℝ) * (Real.pi / 180) := by
  refine ⟨fun q h => ddtrDeg_small q h, by decide, by decide, by decide, ?_⟩
  have hdeg : decimalDegreesToRadiansDeg (JSVal.vnum (2 ^ 31)) =
      -(2 ^ 31) := by decide
  have hfl : ⌊|(2 ^ 31 : ℚ)|⌋ = (2 ^ 31 : ℤ) := by decide
  rw [hdeg, hfl]
  intro hcontra
  have h2 : ((-(2 ^ 31) : ℤ) : ℝ) = (((2 ^ 31 : ℤ) : ℤ) : ℝ) :=
    mul_right_cancel₀ pi180_ne_zero hcontra
  norm_num at h2

/-- Witness for C10 at the in-range heading 45.7: the degree count is
the floor of the absolute value. -/
theorem toInt32_truncation_wrap_witness :
    |(mkRat 457 10 : ℚ)| < 2 ^ 31 ∧
    decimalDegreesToRadiansDeg (JSVal.vnum (mkRat 457 10)) =
      ⌊|(mkRat 457 10 : ℚ)|⌋ :=
  ⟨by decide, toInt32_truncation_wrap.1 (mkRat 457 10) (by decide)⟩

end AirTrafficMap
